import Mathlib

/-!
Verification of the fruit-store order workflow, order presentation
resolver and document serializer.

The Python source is shallowly embedded:

* Mongo/BSON values (`None`, booleans, ints, floats, strings, `ObjectId`,
  `datetime`, lists, dicts) become the inductive type `Value`.  Python
  floats are modelled as exact rationals; `ObjectId` is modelled by its
  24-character hex string; `datetime` by a `PyDateTime` record.
* Collections are lists of typed documents; `find_one(filter)` is the
  first match in insertion order, `insert_one` appends, and
  `update_one(filter, set)` rewrites the first match.
* Route handlers become functions from the database state and the request
  data to the new database state together with an `Except` result;
  `raise HTTPException(status, detail)` becomes `.error ⟨status, detail⟩`.
* A `try/except` region that can genuinely fault becomes an
  `Except String` computation; code paths where no exception can occur are
  total.
-/

set_option linter.unusedVariables false

/-- A Python `datetime.datetime` (the components used by the code). -/
structure PyDateTime where
  year : Nat
  month : Nat
  day : Nat
  hour : Nat
  minute : Nat
  second : Nat
deriving DecidableEq, Repr

/-- A BSON / Python value as stored in Mongo documents and handled by
`serialize_doc`: `None`, scalars, `ObjectId` (by its hex string),
`datetime`, lists and dicts (association lists in key order). -/
inductive Value where
  | null : Value
  | bool : Bool → Value
  | int : Int → Value
  | num : ℚ → Value
  | str : String → Value
  | oid : String → Value
  | date : PyDateTime → Value
  | arr : List Value → Value
  | dict : List (String × Value) → Value
deriving Repr

mutual

/-- Structural (Python `==`-style, type-sensitive) equality on values,
used to model Mongo filter matching. -/
def valueEq : Value → Value → Bool
  | .null, .null => true
  | .bool a, .bool b => a == b
  | .int a, .int b => a == b
  | .num a, .num b => a == b
  | .str a, .str b => a == b
  | .oid a, .oid b => a == b
  | .date a, .date b => a == b
  | .arr a, .arr b => valueArrEq a b
  | .dict a, .dict b => valueDictEq a b
  | _, _ => false

def valueArrEq : List Value → List Value → Bool
  | [], [] => true
  | a :: as, b :: bs => valueEq a b && valueArrEq as bs
  | _, _ => false

def valueDictEq : List (String × Value) → List (String × Value) → Bool
  | [], [] => true
  | (k, v) :: as, (l, w) :: bs => k == l && valueEq v w && valueDictEq as bs
  | _, _ => false

end

instance : BEq Value := ⟨valueEq⟩

/-- Zero-padded two-digit field of `strftime`. -/
def pad2 (n : Nat) : String :=
  if n < 10 then "0" ++ toString n else toString n

/-- Zero-padded four-digit year field of `strftime`. -/
def pad4 (n : Nat) : String :=
  if n < 10 then "000" ++ toString n
  else if n < 100 then "00" ++ toString n
  else if n < 1000 then "0" ++ toString n
  else toString n

/-- `dt.strftime('%Y-%m-%d')`. -/
def strftimeYMD (d : PyDateTime) : String :=
  pad4 d.year ++ "-" ++ pad2 d.month ++ "-" ++ pad2 d.day

/-- `str(dt)` for a `datetime`: `YYYY-MM-DD HH:MM:SS`. -/
def pyStrDateTime (d : PyDateTime) : String :=
  strftimeYMD d ++ " " ++ pad2 d.hour ++ ":" ++ pad2 d.minute ++ ":" ++ pad2 d.second

mutual

/-- Python `str(value)`.  Exact for the cases the code exercises (`None`,
booleans, ints, strings, `ObjectId`, `datetime`); container rendering is a
faithful shape (bracketed, comma-separated) without CPython's repr
quoting, which no property depends on. -/
def pyStr : Value → String
  | .null => "None"
  | .bool b => if b then "True" else "False"
  | .int n => toString n
  | .num q => toString q
  | .str s => s
  | .oid h => h
  | .date d => pyStrDateTime d
  | .arr l => "[" ++ pyStrArr l ++ "]"
  | .dict l => "\x7b" ++ pyStrDict l ++ "\x7d"

def pyStrArr : List Value → String
  | [] => ""
  | [v] => pyStr v
  | v :: rest => pyStr v ++ ", " ++ pyStrArr rest

def pyStrDict : List (String × Value) → String
  | [] => ""
  | [(k, v)] => k ++ ": " ++ pyStr v
  | (k, v) :: rest => k ++ ": " ++ pyStr v ++ ", " ++ pyStrDict rest

end

/-- `s.split('T')[0]`: the prefix of `s` up to the first `'T'`. -/
def takeBeforeT (s : String) : String :=
  String.mk (s.toList.takeWhile (fun c => c ≠ 'T'))

/-- The `"$date"` unwrap branch of `serialize_doc`: a string payload is
cut at the first `'T'`; any other payload goes through `str(...)` first. -/
def serializeDateTag : Value → Value
  | .str s => .str (takeBeforeT s)
  | v => .str (takeBeforeT (pyStr v))

mutual

/-- `src/utils/helpers.py` `serialize_doc`: `None` maps to `None`; lists
recurse elementwise; a dict tagged `"$oid"` returns its payload as-is and
one tagged `"$date"` returns the date part of its payload; other dicts
are rebuilt field by field; a bare `ObjectId` becomes its string and a
bare `datetime` its `%Y-%m-%d` rendering; other scalars pass through. -/
def serialize_doc : Value → Value
  | .null => .null
  | .arr l => .arr (serializeArr l)
  | .dict l =>
    match l.lookup "$oid" with
    | some v => v
    | none =>
      match l.lookup "$date" with
      | some v => serializeDateTag v
      | none => .dict (serializeDict l)
  | .oid h => .str h
  | .date d => .str (strftimeYMD d)
  | .bool b => .bool b
  | .int n => .int n
  | .num q => .num q
  | .str s => .str s

def serializeArr : List Value → List Value
  | [] => []
  | v :: rest => serialize_doc v :: serializeArr rest

def serializeDict : List (String × Value) → List (String × Value)
  | [] => []
  | (k, v) :: rest => (k, serialize_doc v) :: serializeDict rest

end

/-- The per-value dispatch inside the regular-dict loop of
`serialize_doc`: `ObjectId` → string, `datetime` → `%Y-%m-%d`, dicts and
lists recurse through `serialize_doc`, everything else is unchanged. -/
def serializeValue : Value → Value
  | .oid h => .str h
  | .date d => .str (strftimeYMD d)
  | .dict l => serialize_doc (.dict l)
  | .arr l => serialize_doc (.arr l)
  | v => v

/-- The inner field dispatch coincides with `serialize_doc` itself, so
`serializeDict` (which uses `serialize_doc` on each field value) is a
faithful rendering of the source's per-field branches. -/
theorem serializeValue_eq (v : Value) : serializeValue v = serialize_doc v := by
  cases v <;> rfl

mutual

/-- A value is in serialized form when it contains no raw `ObjectId`, no
raw `datetime`, and no dict carrying a `"$oid"` or `"$date"` tag: exactly
the values on which a further `serialize_doc` pass is a no-op. -/
def isSerialized : Value → Bool
  | .null => true
  | .bool _ => true
  | .int _ => true
  | .num _ => true
  | .str _ => true
  | .oid _ => false
  | .date _ => false
  | .arr l => isSerializedArr l
  | .dict l =>
    (l.lookup "$oid").isNone && (l.lookup "$date").isNone && isSerializedDict l

def isSerializedArr : List Value → Bool
  | [] => true
  | v :: rest => isSerialized v && isSerializedArr rest

def isSerializedDict : List (String × Value) → Bool
  | [] => true
  | (_, v) :: rest => isSerialized v && isSerializedDict rest

end

mutual

/-- A value all of whose `"$oid"`-tagged wrapper payloads (at any depth
outside `"$oid"`/`"$date"` tags) are already in serialized form.  These
payloads are returned by `serialize_doc` without being recursed into, so
this is the domain on which the serializer output is fully serialized. -/
def oidPayloadsSerialized : Value → Bool
  | .arr l => oidPayloadsSerializedArr l
  | .dict l =>
    match l.lookup "$oid" with
    | some v => isSerialized v
    | none =>
      match l.lookup "$date" with
      | some _ => true
      | none => oidPayloadsSerializedDict l
  | _ => true

def oidPayloadsSerializedArr : List Value → Bool
  | [] => true
  | v :: rest => oidPayloadsSerialized v && oidPayloadsSerializedArr rest

def oidPayloadsSerializedDict : List (String × Value) → Bool
  | [] => true
  | (_, v) :: rest => oidPayloadsSerialized v && oidPayloadsSerializedDict rest

end

/-- `serializeDict` keeps the key set and key order, serializing values. -/
theorem lookup_serializeDict (k : String) :
    ∀ l : List (String × Value),
      (serializeDict l).lookup k = (l.lookup k).map serialize_doc
  | [] => rfl
  | (k1, v) :: rest => by
      simp only [serializeDict, List.lookup]
      cases h : k == k1
      · simpa using lookup_serializeDict k rest
      · simp

mutual

/-- A value already in serialized form is a fixed point of the
serializer. -/
theorem serialize_id_of_isSerialized :
    ∀ v : Value, isSerialized v = true → serialize_doc v = v
  | .null, _ => rfl
  | .bool b, _ => rfl
  | .int n, _ => rfl
  | .num q, _ => rfl
  | .str s, _ => rfl
  | .oid h, hs => by simp [isSerialized] at hs
  | .date d, hs => by simp [isSerialized] at hs
  | .arr l, hs => by
      simp only [isSerialized] at hs
      simp only [serialize_doc]
      rw [serializeArr_id_of_isSerialized l hs]
  | .dict l, hs => by
      simp only [isSerialized, Bool.and_eq_true, Option.isNone_iff_eq_none] at hs
      obtain ⟨⟨h1, h2⟩, h3⟩ := hs
      simp only [serialize_doc, h1, h2]
      rw [serializeDict_id_of_isSerialized l h3]

theorem serializeArr_id_of_isSerialized :
    ∀ l : List Value, isSerializedArr l = true → serializeArr l = l
  | [], _ => rfl
  | v :: rest, hs => by
      simp only [isSerializedArr, Bool.and_eq_true] at hs
      simp only [serializeArr]
      rw [serialize_id_of_isSerialized v hs.1,
        serializeArr_id_of_isSerialized rest hs.2]

theorem serializeDict_id_of_isSerialized :
    ∀ l : List (String × Value), isSerializedDict l = true → serializeDict l = l
  | [], _ => rfl
  | (k, v) :: rest, hs => by
      simp only [isSerializedDict, Bool.and_eq_true] at hs
      simp only [serializeDict]
      rw [serialize_id_of_isSerialized v hs.1,
        serializeDict_id_of_isSerialized rest hs.2]

end

mutual

/-- On the domain where every `"$oid"` payload is already serialized, the
serializer's output is in serialized form. -/
theorem serialize_isSerialized :
    ∀ v : Value, oidPayloadsSerialized v = true →
      isSerialized (serialize_doc v) = true
  | .null, _ => rfl
  | .bool b, _ => rfl
  | .int n, _ => rfl
  | .num q, _ => rfl
  | .str s, _ => rfl
  | .oid h, _ => rfl
  | .date d, _ => rfl
  | .arr l, hp => by
      simp only [oidPayloadsSerialized] at hp
      simp only [serialize_doc, isSerialized]
      exact serializeArr_isSerialized l hp
  | .dict l, hp => by
      simp only [oidPayloadsSerialized] at hp
      cases h1 : l.lookup "$oid" with
      | some p =>
          rw [h1] at hp
          simp only [serialize_doc, h1]
          exact hp
      | none =>
          rw [h1] at hp
          cases h2 : l.lookup "$date" with
          | some d =>
              simp only [serialize_doc, h1, h2]
              cases d <;> rfl
          | none =>
              rw [h2] at hp
              simp only [serialize_doc, h1, h2]
              simp [isSerialized, lookup_serializeDict, h1, h2]
              exact serializeDict_isSerialized l hp

theorem serializeArr_isSerialized :
    ∀ l : List Value, oidPayloadsSerializedArr l = true →
      isSerializedArr (serializeArr l) = true
  | [], _ => rfl
  | v :: rest, hp => by
      simp only [oidPayloadsSerializedArr, Bool.and_eq_true] at hp
      simp only [serializeArr, isSerializedArr, Bool.and_eq_true]
      exact ⟨serialize_isSerialized v hp.1, serializeArr_isSerialized rest hp.2⟩

theorem serializeDict_isSerialized :
    ∀ l : List (String × Value), oidPayloadsSerializedDict l = true →
      isSerializedDict (serializeDict l) = true
  | [], _ => rfl
  | (k, v) :: rest, hp => by
      simp only [oidPayloadsSerializedDict, Bool.and_eq_true] at hp
      simp only [serializeDict, isSerializedDict, Bool.and_eq_true]
      exact ⟨serialize_isSerialized v hp.1, serializeDict_isSerialized rest hp.2⟩

end

/-- C6 counterexample: a document tagged as a pre-serialized identifier
whose payload is a raw `ObjectId` (a document composed of nested
documents and system identifiers, hence in the claimed input domain) is
returned by the first pass with the raw `ObjectId` payload intact, and
the second pass then turns that `ObjectId` into a string, so the second
pass is not a no-op. -/
theorem C6_serialize_doc_not_idempotent :
    serialize_doc (serialize_doc (Value.dict [("$oid", Value.oid "abc")])) ≠
      serialize_doc (Value.dict [("$oid", Value.oid "abc")]) :=
  fun h => Value.noConfusion h

/-- C6 (amended): `serialize_doc` is idempotent on every input document
composed of scalars, system identifiers, timestamps, nested documents and
sequences thereof, provided each `"$oid"`-tagged pre-serialized wrapper
carries a payload that is already in serialized form (for example the
identifier string); a wrapper holding a raw `ObjectId` payload is passed
through unserialized by the first pass and is the one exception. -/
theorem C6_serialize_doc_idempotent (v : Value)
    (h : oidPayloadsSerialized v = true) :
    serialize_doc (serialize_doc v) = serialize_doc v :=
  serialize_id_of_isSerialized _ (serialize_isSerialized v h)

/-- A concrete document with a system identifier, a timestamp, a
pre-serialized identifier wrapper and a nested sequence. -/
def c6SampleDoc : Value :=
  Value.dict [("sys", Value.oid "0123456789abcdef01234567"),
    ("created", Value.date ⟨2024, 5, 7, 10, 30, 0⟩),
    ("wrapped", Value.dict [("$oid", Value.str "64ffab")]),
    ("tags", Value.arr [Value.str "new", Value.int 3,
      Value.dict [("$date", Value.str "2024-05-07T10:30:00")]])]

/-- C6 witness: the amended idempotence theorem applied to
`c6SampleDoc`. -/
theorem C6_serialize_doc_idempotent_witness :
    oidPayloadsSerialized c6SampleDoc = true ∧
      serialize_doc (serialize_doc c6SampleDoc) = serialize_doc c6SampleDoc :=
  ⟨rfl, C6_serialize_doc_idempotent c6SampleDoc rfl⟩

/-- Python truthiness of a stored value (`if value:`). -/
def isTruthy : Value → Bool
  | .null => false
  | .bool b => b
  | .int n => n != 0
  | .num q => q != 0
  | .str s => s != ""
  | .arr l => !l.isEmpty
  | .dict l => !l.isEmpty
  | .oid _ => true
  | .date _ => true

def pyIsHexDigit (c : Char) : Bool :=
  c.isDigit || (('a' ≤ c) && (c ≤ 'f')) || (('A' ≤ c) && (c ≤ 'F'))

/-- `bson.ObjectId(s)` on a string: succeeds exactly on a 24-character
hex string (returning an `ObjectId` with that hex form), raises
`InvalidId` otherwise. -/
def parseObjectId (s : String) : Option String :=
  if s.length == 24 && s.toList.all pyIsHexDigit then some s else none

/-- A customer document.  `customerId` is the user-supplied business
identifier; the fallback chain in order listing probes it with values of
several types, so it is kept as a loose `Value`. -/
structure CustomerDoc where
  oid : String
  customerId : Value
  name : String
  phone : String
  address : String
  isMember : Bool
  updated_at : Option Value
deriving Repr

/-- A fruit document, as written by the create/edit handlers. -/
structure FruitDoc where
  oid : String
  barCode : String
  name : String
  category : String
  pricePerKg : ℚ
  stockKg : Int
  country : String
  supplierId : String
  isOrganic : Bool
deriving Repr

/-- An order document.  The listing code reads every field defensively
(`order.get(...)`), so each field other than `_id` is an optional loose
value; the creation handlers write all of them. -/
structure OrderDoc where
  oid : String
  orderDate : Option Value
  customerId : Option Value
  items : Option Value
  totalAmount : Option Value
  status : Option Value
deriving Repr

/-- The database: the three collections the order workflow touches.
The suppliers collection is never read or written by any modelled
operation. -/
structure DB where
  customers : List CustomerDoc
  fruits : List FruitDoc
  orders : List OrderDoc
deriving Repr

/-- `customers_collection.find_one(\x7b"customerId": v\x7d)`: first match in
insertion order, comparing the stored value with Mongo equality. -/
def findCustomerByCid (customers : List CustomerDoc) (v : Value) : Option CustomerDoc :=
  customers.find? (fun c => valueEq c.customerId v)

/-- `customers_collection.find_one(\x7b"_id": ObjectId(...)\x7d)`. -/
def findCustomerByOid (customers : List CustomerDoc) (o : String) : Option CustomerDoc :=
  customers.find? (fun c => c.oid == o)

/-- `fruits_collection.find_one(\x7b"_id": ObjectId(...)\x7d)`. -/
def findFruitByOid (fruits : List FruitDoc) (o : String) : Option FruitDoc :=
  fruits.find? (fun f => f.oid == o)

/-- `fruits_collection.find_one(\x7b"_id": item["fruitId"]\x7d)` with a loose
stored value: only an `ObjectId` value can match a stored `_id`. -/
def findFruitByIdValue (fruits : List FruitDoc) (v : Value) : Option FruitDoc :=
  match v with
  | .oid h => findFruitByOid fruits h
  | _ => none

/-- `fastapi.HTTPException` (and the error JSON envelope, which also
carries a status code and a message). -/
structure HTTPError where
  status : Nat
  detail : String
deriving DecidableEq, Repr

/-- `f"Fruit with ID {item.fruitId} not found"`. -/
def fruitNotFoundMsg (fid : String) : String :=
  "Fruit with ID " ++ fid ++ " not found"

/-- `f"Insufficient stock for {fruit['name']}. Available: {fruit['stockKg']}kg"`. -/
def insufficientStockMsg (name : String) (stock : Int) : String :=
  "Insufficient stock for " ++ name ++ ". Available: " ++ toString stock ++ "kg"

/-- `models/order.py` `OrderItemModel`. -/
structure OrderItemModel where
  fruitId : String
  quantityKg : ℚ
deriving Repr

/-- `models/order.py` `OrderModel` (`status` defaults to `"Pending"`). -/
structure OrderModel where
  customerId : String
  items : List OrderItemModel
  status : String := "Pending"
deriving Repr

/-- The embedded line-item document written by order creation:
`\x7b"fruitId": ObjectId(...), "quantityKg": ...\x7d`. -/
def orderItemValue (fid : String) (q : ℚ) : Value :=
  .dict [("fruitId", .oid fid), ("quantityKg", .num q)]

/-- The item loop of `create_order_api`: resolve each fruit by system
identifier (404 on miss, 500 on a malformed identifier string, both
surfaced as error responses), reject with a 400 when the requested
quantity exceeds `stockKg`, and otherwise accumulate the running total
`total += pricePerKg * quantityKg` and the processed item list. -/
def processItemsApi (fruits : List FruitDoc) :
    List OrderItemModel → ℚ → List Value → Except HTTPError (ℚ × List Value)
  | [], total, acc => .ok (total, acc)
  | item :: rest, total, acc =>
    match parseObjectId item.fruitId with
    | none => .error ⟨500, "InvalidId: " ++ item.fruitId⟩
    | some fid =>
      match findFruitByOid fruits fid with
      | none => .error ⟨404, fruitNotFoundMsg item.fruitId⟩
      | some fruit =>
        if (fruit.stockKg : ℚ) < item.quantityKg then
          .error ⟨400, insufficientStockMsg fruit.name fruit.stockKg⟩
        else
          processItemsApi fruits rest (total + fruit.pricePerKg * item.quantityKg)
            (acc ++ [orderItemValue fid item.quantityKg])

/-- `src/routes/api_routes.py` `create_order_api`: validate the customer
by business identifier first, then run the item loop, then insert the
order document.  The returned state is the database after the handler;
an error leaves it untouched since the insert is the only write and is
the last step. -/
def create_order_api (db : DB) (order : OrderModel) (now : PyDateTime)
    (newId : String) : DB × Except HTTPError ℚ :=
  match findCustomerByCid db.customers (.str order.customerId) with
  | none => (db, .error ⟨404, "Customer not found"⟩)
  | some _ =>
    match processItemsApi db.fruits order.items 0 [] with
    | .error e => (db, .error e)
    | .ok (total, procItems) =>
      ({ db with orders := db.orders ++
          [{ oid := newId, orderDate := some (.date now),
             customerId := some (.str order.customerId),
             items := some (.arr procItems),
             totalAmount := some (.num total),
             status := some (.str order.status) }] },
       .ok total)

/-- `src/routes/web_routes.py` `create_order` (the form path): look up
the single fruit, compute `total = pricePerKg * quantityKg` with no
stock comparison of any kind, then validate the customer, then insert. -/
def create_order (db : DB) (customerId fruitId : String) (quantityKg : ℚ)
    (orderStatus : String) (now : PyDateTime) (newId : String) :
    DB × Except HTTPError Unit :=
  match parseObjectId fruitId with
  | none => (db, .error ⟨500, "InvalidId: " ++ fruitId⟩)
  | some fid =>
    match findFruitByOid db.fruits fid with
    | none => (db, .error ⟨404, "Fruit not found"⟩)
    | some fruit =>
      let total := fruit.pricePerKg * quantityKg
      match findCustomerByCid db.customers (.str customerId) with
      | none => (db, .error ⟨404, "Customer not found"⟩)
      | some _ =>
        ({ db with orders := db.orders ++
            [{ oid := newId, orderDate := some (.date now),
               customerId := some (.str customerId),
               items := some (.arr [orderItemValue fid quantityKg]),
               totalAmount := some (.num total),
               status := some (.str orderStatus) }] },
         .ok ())

/-- The fruit a line item's identifier string resolves to
(`ObjectId(item.fruitId)` then `find_one`). -/
def resolveItemFruit (fruits : List FruitDoc) (item : OrderItemModel) : Option FruitDoc :=
  (parseObjectId item.fruitId).bind (findFruitByOid fruits)

/-- The fruit's price at lookup time (0 when the item does not resolve;
only used under resolution hypotheses). -/
def itemFruitPrice (fruits : List FruitDoc) (item : OrderItemModel) : ℚ :=
  match resolveItemFruit fruits item with
  | some f => f.pricePerKg
  | none => 0

/-- An item passes validation: its fruit resolves and the requested
quantity does not exceed the stock. -/
def itemPasses (fruits : List FruitDoc) (item : OrderItemModel) : Prop :=
  ∃ f, resolveItemFruit fruits item = some f ∧ item.quantityKg ≤ (f.stockKg : ℚ)

theorem parseObjectId_some {s t : String} (h : parseObjectId s = some t) : t = s := by
  unfold parseObjectId at h
  split at h
  · exact (Option.some.inj h).symm
  · exact Option.noConfusion h

/-- A successful item loop returns the accumulated total plus the sum of
price-times-quantity over the items, and appends one embedded item
document per line item. -/
theorem processItemsApi_ok (fruits : List FruitDoc) :
    ∀ (items : List OrderItemModel) (total : ℚ) (acc : List Value)
      (total' : ℚ) (out : List Value),
      processItemsApi fruits items total acc = .ok (total', out) →
      total' = total + (items.map (fun i => itemFruitPrice fruits i * i.quantityKg)).sum ∧
      out = acc ++ items.map (fun i => orderItemValue i.fruitId i.quantityKg)
  | [], total, acc, total', out => by
      intro h
      simp only [processItemsApi, Except.ok.injEq, Prod.mk.injEq] at h
      simp [← h.1, ← h.2]
  | item :: rest, total, acc, total', out => by
      intro h
      simp only [processItemsApi] at h
      split at h
      · exact Except.noConfusion h
      · rename_i fid hp
        split at h
        · exact Except.noConfusion h
        · rename_i fruit hf
          split at h
          · exact Except.noConfusion h
          · rename_i hs
            have hfid : fid = item.fruitId := parseObjectId_some hp
            subst hfid
            have ih := processItemsApi_ok fruits rest _ _ _ _ h
            have hprice : itemFruitPrice fruits item = fruit.pricePerKg := by
              simp [itemFruitPrice, resolveItemFruit, hp, hf]
            constructor
            · rw [ih.1]
              simp only [List.map_cons, List.sum_cons, hprice]
              ring
            · rw [ih.2]; simp

/-- When every item passes validation, the item loop succeeds with the
summed total and the full processed item list. -/
theorem processItemsApi_all_pass (fruits : List FruitDoc) :
    ∀ (items : List OrderItemModel) (total : ℚ) (acc : List Value),
      (∀ i ∈ items, itemPasses fruits i) →
      processItemsApi fruits items total acc =
        .ok (total + (items.map (fun i => itemFruitPrice fruits i * i.quantityKg)).sum,
          acc ++ items.map (fun i => orderItemValue i.fruitId i.quantityKg))
  | [], total, acc, _ => by simp [processItemsApi]
  | item :: rest, total, acc, hall => by
      obtain ⟨f, hres, hle⟩ := hall item (List.mem_cons_self item rest)
      cases hp : parseObjectId item.fruitId with
      | none => rw [resolveItemFruit, hp, Option.none_bind] at hres; exact Option.noConfusion hres
      | some fid =>
        have hfid : fid = item.fruitId := parseObjectId_some hp
        subst hfid
        rw [resolveItemFruit, hp, Option.some_bind] at hres
        have hprice : itemFruitPrice fruits item = f.pricePerKg := by
          simp [itemFruitPrice, resolveItemFruit, hp, hres]
        simp only [processItemsApi, hp, hres]
        rw [if_neg (not_lt.mpr hle)]
        rw [processItemsApi_all_pass fruits rest _ _
          (fun i hi => hall i (List.mem_cons_of_mem _ hi))]
        simp only [Except.ok.injEq, Prod.mk.injEq]
        constructor
        · simp only [List.map_cons, List.sum_cons, hprice]; ring
        · simp

/-- When every item resolves but some item's quantity exceeds its
fruit's stock, the item loop fails with the 400 insufficient-stock
message built from a fruit's name and available stock. -/
theorem processItemsApi_insufficient (fruits : List FruitDoc) :
    ∀ (items : List OrderItemModel) (total : ℚ) (acc : List Value),
      (∀ i ∈ items, ∃ f, resolveItemFruit fruits i = some f) →
      (∃ i ∈ items, ∃ f, resolveItemFruit fruits i = some f ∧
        (f.stockKg : ℚ) < i.quantityKg) →
      ∃ name stock, processItemsApi fruits items total acc =
        .error ⟨400, insufficientStockMsg name stock⟩
  | [], _, _, _, hex => by simp at hex
  | item :: rest, total, acc, hall, hex => by
      obtain ⟨f, hres⟩ := hall item (List.mem_cons_self item rest)
      cases hp : parseObjectId item.fruitId with
      | none => rw [resolveItemFruit, hp, Option.none_bind] at hres; exact Option.noConfusion hres
      | some fid =>
        have hfid : fid = item.fruitId := parseObjectId_some hp
        subst hfid
        have hfind : findFruitByOid fruits item.fruitId = some f := by
          rw [resolveItemFruit, hp, Option.some_bind] at hres; exact hres
        by_cases hs : (f.stockKg : ℚ) < item.quantityKg
        · refine ⟨f.name, f.stockKg, ?_⟩
          simp only [processItemsApi, hp, hfind]
          rw [if_pos hs]
        · obtain ⟨name, stock, hrec⟩ :=
            processItemsApi_insufficient fruits rest
              (total + f.pricePerKg * item.quantityKg)
              (acc ++ [orderItemValue item.fruitId item.quantityKg])
              (fun i hi => hall i (List.mem_cons_of_mem _ hi))
              (by
                obtain ⟨i0, hi0, f0, hres0, hlt0⟩ := hex
                rcases List.mem_cons.mp hi0 with h | h
                · subst h
                  rw [resolveItemFruit, hp, Option.some_bind, hfind] at hres0
                  cases Option.some.inj hres0
                  exact absurd hlt0 hs
                · exact ⟨i0, h, f0, hres0, hlt0⟩)
          refine ⟨name, stock, ?_⟩
          simp only [processItemsApi, hp, hfind]
          rw [if_neg hs]
          exact hrec

/-- When some item fails validation, the item loop fails. -/
theorem processItemsApi_fail (fruits : List FruitDoc) :
    ∀ (items : List OrderItemModel) (total : ℚ) (acc : List Value),
      (∃ i ∈ items, ¬ itemPasses fruits i) →
      ∃ e, processItemsApi fruits items total acc = .error e
  | [], _, _, hex => by simp at hex
  | item :: rest, total, acc, hex => by
      cases hp : parseObjectId item.fruitId with
      | none =>
          exact ⟨⟨500, "InvalidId: " ++ item.fruitId⟩,
            by simp only [processItemsApi, hp]⟩
      | some fid =>
        cases hf : findFruitByOid fruits fid with
        | none =>
            exact ⟨⟨404, fruitNotFoundMsg item.fruitId⟩,
              by simp only [processItemsApi, hp, hf]⟩
        | some fruit =>
          by_cases hs : (fruit.stockKg : ℚ) < item.quantityKg
          · exact ⟨⟨400, insufficientStockMsg fruit.name fruit.stockKg⟩,
              by simp only [processItemsApi, hp, hf]; rw [if_pos hs]⟩
          · have hfid : fid = item.fruitId := parseObjectId_some hp
            subst hfid
            have hpass : itemPasses fruits item :=
              ⟨fruit, by simp [resolveItemFruit, hp, hf], not_lt.mp hs⟩
            obtain ⟨i0, hi0, hnp⟩ := hex
            rcases List.mem_cons.mp hi0 with h | h
            · subst h; exact absurd hpass hnp
            · obtain ⟨e, he⟩ := processItemsApi_fail fruits rest
                (total + fruit.pricePerKg * item.quantityKg)
                (acc ++ [orderItemValue item.fruitId item.quantityKg]) ⟨i0, h, hnp⟩
              exact ⟨e, by simp only [processItemsApi, hp, hf]; rw [if_neg hs]; exact he⟩

/-- When the first failing item references a missing fruit, the item
loop fails with the 404 message naming that item's identifier. -/
theorem processItemsApi_first_missing (fruits : List FruitDoc) :
    ∀ (pre : List OrderItemModel) (bad : OrderItemModel)
      (rest : List OrderItemModel) (total : ℚ) (acc : List Value),
      (∀ i ∈ pre, itemPasses fruits i) →
      parseObjectId bad.fruitId = some bad.fruitId →
      findFruitByOid fruits bad.fruitId = none →
      processItemsApi fruits (pre ++ bad :: rest) total acc =
        .error ⟨404, fruitNotFoundMsg bad.fruitId⟩
  | [], bad, rest, total, acc, _, hv, hmiss => by
      simp only [List.nil_append, processItemsApi, hv, hmiss]
  | p :: pre, bad, rest, total, acc, hall, hv, hmiss => by
      obtain ⟨f, hres, hle⟩ := hall p (List.mem_cons_self p pre)
      cases hp : parseObjectId p.fruitId with
      | none => rw [resolveItemFruit, hp, Option.none_bind] at hres; exact Option.noConfusion hres
      | some fid =>
        have hfid : fid = p.fruitId := parseObjectId_some hp
        subst hfid
        rw [resolveItemFruit, hp, Option.some_bind] at hres
        simp only [List.cons_append, processItemsApi, hp, hres]
        rw [if_neg (not_lt.mpr hle)]
        exact processItemsApi_first_missing fruits pre bad rest _ _
          (fun i hi => hall i (List.mem_cons_of_mem _ hi)) hv hmiss

/-- A fixed request timestamp for concrete runs. -/
def t0 : PyDateTime := ⟨2024, 6, 1, 12, 0, 0⟩

def appleFruit : FruitDoc :=
  { oid := "aaaaaaaaaaaaaaaaaaaaaaaa", barCode := "111", name := "Apple",
    category := "Pome", pricePerKg := 5/2, stockKg := 5, country := "KH",
    supplierId := "bbbbbbbbbbbbbbbbbbbbbbbb", isOrganic := false }

def mangoFruit : FruitDoc :=
  { oid := "abcabcabcabcabcabcabcabc", barCode := "222", name := "Mango",
    category := "Tropical", pricePerKg := 333/100, stockKg := 10, country := "KH",
    supplierId := "bbbbbbbbbbbbbbbbbbbbbbbb", isOrganic := true }

def aliceCustomer : CustomerDoc :=
  { oid := "cccccccccccccccccccccccc", customerId := .str "C1", name := "Alice",
    phone := "012345678", address := "Phnom Penh", isMember := true,
    updated_at := none }

/-- A store with one customer and two fruits, no orders. -/
def baseDb : DB :=
  { customers := [aliceCustomer], fruits := [appleFruit, mangoFruit], orders := [] }

/-- An empty store. -/
def emptyDb : DB := { customers := [], fruits := [], orders := [] }

/-- The API path rejects a request before looking at any item when the
customer is absent. -/
theorem create_order_api_customer_missing (db : DB) (order : OrderModel)
    (now : PyDateTime) (newId : String)
    (hc : findCustomerByCid db.customers (.str order.customerId) = none) :
    create_order_api db order now newId = (db, .error ⟨404, "Customer not found"⟩) := by
  simp only [create_order_api, hc]

/-- The web path rejects a request with a missing fruit regardless of the
customer (the customer is only resolved afterwards). -/
theorem create_order_fruit_missing (db : DB) (cid fid : String) (q : ℚ)
    (st : String) (now : PyDateTime) (newId : String)
    (hv : parseObjectId fid = some fid)
    (hmiss : findFruitByOid db.fruits fid = none) :
    create_order db cid fid q st now newId = (db, .error ⟨404, "Fruit not found"⟩) := by
  simp only [create_order, hv, hmiss]

/-- The web path inserts the order whenever the fruit and customer
resolve: there is no stock comparison on this path. -/
theorem create_order_web_succeeds (db : DB) (cid fid : String) (q : ℚ)
    (st : String) (now : PyDateTime) (newId : String) (f : FruitDoc)
    (hv : parseObjectId fid = some fid)
    (hfind : findFruitByOid db.fruits fid = some f)
    (hc : ∃ c, findCustomerByCid db.customers (.str cid) = some c) :
    (create_order db cid fid q st now newId).2 = .ok () ∧
    (create_order db cid fid q st now newId).1.orders = db.orders ++
      [{ oid := newId, orderDate := some (.date now),
         customerId := some (.str cid),
         items := some (.arr [orderItemValue fid q]),
         totalAmount := some (.num (f.pricePerKg * q)),
         status := some (.str st) }] := by
  obtain ⟨c, hc⟩ := hc
  constructor <;> simp only [create_order, hv, hfind, hc]

/-- C1 counterexample: on the web form path an order for 100 kg of a
fruit with 5 kg in stock (100 > 5) is accepted and an order document is
persisted — the form path performs no stock comparison, so the claimed
InsufficientStock failure does not happen there. -/
theorem C1_web_stock_overrun_persists :
    ((appleFruit.stockKg : ℚ) < 100) ∧
    (create_order baseDb "C1" "aaaaaaaaaaaaaaaaaaaaaaaa" 100 "Pending" t0
        "dddddddddddddddddddddddd").2 = .ok () ∧
    ((create_order baseDb "C1" "aaaaaaaaaaaaaaaaaaaaaaaa" 100 "Pending" t0
        "dddddddddddddddddddddddd").1).orders.length = 1 :=
  ⟨by norm_num [appleFruit], rfl, rfl⟩

/-- C1 (amended): only the API order-creation path enforces the stock
check.  There, with the customer present and every item resolving, a
request containing an item whose quantity exceeds the fruit's stock
fails with the 400 insufficient-stock error (reporting a fruit's name
and available quantity) and leaves the database unchanged, while a
request in which every quantity is at most the stock passes the check
and succeeds.  The web form path performs no stock check at all: it
persists the order for any requested quantity once fruit and customer
resolve. -/
theorem C1_stock_check_api_only (db : DB) (order : OrderModel)
    (now : PyDateTime) (newId : String) :
    ((∃ c, findCustomerByCid db.customers (.str order.customerId) = some c) →
      (∀ i ∈ order.items, ∃ f, resolveItemFruit db.fruits i = some f) →
      (∃ i ∈ order.items, ∃ f, resolveItemFruit db.fruits i = some f ∧
        (f.stockKg : ℚ) < i.quantityKg) →
      (∃ name stock, (create_order_api db order now newId).2 =
        .error ⟨400, insufficientStockMsg name stock⟩) ∧
      (create_order_api db order now newId).1 = db) ∧
    ((∃ c, findCustomerByCid db.customers (.str order.customerId) = some c) →
      (∀ i ∈ order.items, itemPasses db.fruits i) →
      ∃ total, (create_order_api db order now newId).2 = .ok total ∧
        ((create_order_api db order now newId).1).orders.length =
          db.orders.length + 1) ∧
    (∀ (cid fid : String) (q : ℚ) (st : String) (f : FruitDoc),
      parseObjectId fid = some fid →
      findFruitByOid db.fruits fid = some f →
      (∃ c, findCustomerByCid db.customers (.str cid) = some c) →
      (create_order db cid fid q st now newId).2 = .ok () ∧
      ((create_order db cid fid q st now newId).1).orders.length =
        db.orders.length + 1) := by
  refine ⟨?_, ?_, ?_⟩
  · rintro ⟨c, hc⟩ hall hex
    obtain ⟨name, stock, heq⟩ :=
      processItemsApi_insufficient db.fruits order.items 0 []
        (fun i hi => (hall i hi)) hex
    constructor
    · exact ⟨name, stock, by simp only [create_order_api, hc, heq]⟩
    · simp only [create_order_api, hc, heq]
  · rintro ⟨c, hc⟩ hall
    have heq := processItemsApi_all_pass db.fruits order.items 0 [] hall
    refine ⟨0 + (order.items.map (fun i => itemFruitPrice db.fruits i * i.quantityKg)).sum, ?_, ?_⟩
    · simp only [create_order_api, hc, heq]
    · simp only [create_order_api, hc, heq]
      simp
  · intro cid fid q st f hv hfind hc
    obtain ⟨h1, h2⟩ := create_order_web_succeeds db cid fid q st now newId f hv hfind hc
    exact ⟨h1, by rw [h2]; simp⟩

/-- C1 witness: the amended theorem at concrete stores — an API request
for 100 kg of the 5 kg apple stock is rejected with a 400 and changes
nothing; an API request for 1.5 kg of the 10 kg mango stock succeeds; a
web request for 100 kg of the same apple persists an order. -/
theorem C1_stock_check_api_only_witness :
    ((∃ name stock,
        (create_order_api baseDb ⟨"C1", [⟨"aaaaaaaaaaaaaaaaaaaaaaaa", 100⟩], "Pending"⟩
            t0 "dddddddddddddddddddddddd").2 =
          .error ⟨400, insufficientStockMsg name stock⟩) ∧
      (create_order_api baseDb ⟨"C1", [⟨"aaaaaaaaaaaaaaaaaaaaaaaa", 100⟩], "Pending"⟩
          t0 "dddddddddddddddddddddddd").1 = baseDb) ∧
    (∃ total,
      (create_order_api baseDb ⟨"C1", [⟨"abcabcabcabcabcabcabcabc", 3/2⟩], "Pending"⟩
          t0 "dddddddddddddddddddddddd").2 = .ok total ∧
      ((create_order_api baseDb ⟨"C1", [⟨"abcabcabcabcabcabcabcabc", 3/2⟩], "Pending"⟩
          t0 "dddddddddddddddddddddddd").1).orders.length =
        baseDb.orders.length + 1) ∧
    ((create_order baseDb "C1" "aaaaaaaaaaaaaaaaaaaaaaaa" 100 "Pending" t0
        "eeeeeeeeeeeeeeeeeeeeeeee").2 = .ok () ∧
      ((create_order baseDb "C1" "aaaaaaaaaaaaaaaaaaaaaaaa" 100 "Pending" t0
          "eeeeeeeeeeeeeeeeeeeeeeee").1).orders.length =
        baseDb.orders.length + 1) := by
  refine ⟨?_, ?_, ?_⟩
  · exact (C1_stock_check_api_only baseDb
      ⟨"C1", [⟨"aaaaaaaaaaaaaaaaaaaaaaaa", 100⟩], "Pending"⟩ t0
      "dddddddddddddddddddddddd").1
      ⟨aliceCustomer, rfl⟩
      (by
        intro i hi
        rw [List.mem_singleton] at hi
        subst hi
        exact ⟨appleFruit, rfl⟩)
      ⟨⟨"aaaaaaaaaaaaaaaaaaaaaaaa", 100⟩, List.mem_singleton.mpr rfl,
        appleFruit, rfl, by norm_num [appleFruit]⟩
  · exact (C1_stock_check_api_only baseDb
      ⟨"C1", [⟨"abcabcabcabcabcabcabcabc", 3/2⟩], "Pending"⟩ t0
      "dddddddddddddddddddddddd").2.1
      ⟨aliceCustomer, rfl⟩
      (by
        intro i hi
        rw [List.mem_singleton] at hi
        subst hi
        exact ⟨mangoFruit, rfl, by norm_num [mangoFruit]⟩)
  · exact (C1_stock_check_api_only baseDb
      ⟨"C1", [], "Pending"⟩ t0 "eeeeeeeeeeeeeeeeeeeeeeee").2.2
      "C1" "aaaaaaaaaaaaaaaaaaaaaaaa" 100 "Pending" appleFruit rfl rfl
      ⟨aliceCustomer, rfl⟩

/-- C2: on every successful order creation the persisted total is the
sum over the line items of the looked-up fruit's price per kg times the
requested quantity (exactly, in the embedding's exact arithmetic over
the rationals, fractional quantities included), and the persisted order
embeds exactly the processed items.  The API conjunct covers arbitrary
item lists; the web conjunct covers the single-item form path, whose
total is the single product. -/
theorem C2_total_is_sum (db : DB) (order : OrderModel) (now : PyDateTime)
    (newId : String) :
    (∀ (db' : DB) (total : ℚ),
      create_order_api db order now newId = (db', .ok total) →
      total = (order.items.map (fun i => itemFruitPrice db.fruits i * i.quantityKg)).sum ∧
      db'.orders = db.orders ++
        [{ oid := newId, orderDate := some (.date now),
           customerId := some (.str order.customerId),
           items := some (.arr (order.items.map
             (fun i => orderItemValue i.fruitId i.quantityKg))),
           totalAmount := some (.num total),
           status := some (.str order.status) }]) ∧
    (∀ (cid fid : String) (q : ℚ) (st : String) (db2 : DB),
      create_order db cid fid q st now newId = (db2, .ok ()) →
      ∃ f, findFruitByOid db.fruits fid = some f ∧
        db2.orders = db.orders ++
          [{ oid := newId, orderDate := some (.date now),
             customerId := some (.str cid),
             items := some (.arr [orderItemValue fid q]),
             totalAmount := some (.num (f.pricePerKg * q)),
             status := some (.str st) }]) := by
  constructor
  · intro db' total h
    simp only [create_order_api] at h
    split at h
    · simp only [Prod.mk.injEq] at h
      exact absurd h.2 (by exact fun hx => Except.noConfusion hx)
    · rename_i c hc
      split at h
      · simp only [Prod.mk.injEq] at h
        exact absurd h.2 (by exact fun hx => Except.noConfusion hx)
      · rename_i res tout pout heq
        simp only [Prod.mk.injEq] at h
        obtain ⟨hdb, hok⟩ := h
        have htot : tout = total := Except.ok.inj hok
        subst htot
        obtain ⟨h1, h2⟩ := processItemsApi_ok db.fruits order.items 0 [] tout pout heq
        refine ⟨by rw [h1]; ring, ?_⟩
        rw [← hdb, h2]
        simp
  · intro cid fid q st db2 h
    simp only [create_order] at h
    split at h
    · simp only [Prod.mk.injEq] at h
      exact absurd h.2 (by exact fun hx => Except.noConfusion hx)
    · rename_i fid2 hv
      split at h
      · simp only [Prod.mk.injEq] at h
        exact absurd h.2 (by exact fun hx => Except.noConfusion hx)
      · rename_i f hfind
        split at h
        · simp only [Prod.mk.injEq] at h
          exact absurd h.2 (by exact fun hx => Except.noConfusion hx)
        · rename_i c hc
          simp only [Prod.mk.injEq] at h
          have hfid : fid2 = fid := parseObjectId_some hv
          subst hfid
          exact ⟨f, hfind, by rw [← h.1]⟩

/-- A concrete fractional API order: 1.5 kg of mango at 3.33 per kg. -/
def c2Order : OrderModel :=
  ⟨"C1", [⟨"abcabcabcabcabcabcabcabc", 3/2⟩], "Pending"⟩

/-- The concrete run of `create_order_api` on `c2Order` succeeds with the
accumulated total. -/
theorem c2_run_ok :
    create_order_api baseDb c2Order t0 "ffffffffffffffffffffffff" =
      ((create_order_api baseDb c2Order t0 "ffffffffffffffffffffffff").1,
        .ok (0 + (c2Order.items.map
          (fun i => itemFruitPrice baseDb.fruits i * i.quantityKg)).sum)) := by
  have hpass : ∀ i ∈ c2Order.items, itemPasses baseDb.fruits i := by
    intro i hi
    rw [show c2Order.items = [⟨"abcabcabcabcabcabcabcabc", 3/2⟩] from rfl,
      List.mem_singleton] at hi
    subst hi
    exact ⟨mangoFruit, rfl, by norm_num [mangoFruit]⟩
  have heq := processItemsApi_all_pass baseDb.fruits c2Order.items 0 [] hpass
  have hc : findCustomerByCid baseDb.customers (.str c2Order.customerId) =
      some aliceCustomer := rfl
  simp only [create_order_api, hc, heq]

/-- C2 witness: the theorem applied to the concrete fractional creation
`c2Order` — the persisted total equals the price-times-quantity sum,
which works out to 999/200 = 4.995 for 1.5 kg at 3.33 per kg. -/
theorem C2_total_is_sum_witness :
    0 + (c2Order.items.map
        (fun i => itemFruitPrice baseDb.fruits i * i.quantityKg)).sum =
      (c2Order.items.map
        (fun i => itemFruitPrice baseDb.fruits i * i.quantityKg)).sum ∧
    (c2Order.items.map
        (fun i => itemFruitPrice baseDb.fruits i * i.quantityKg)).sum = 999/200 := by
  constructor
  · exact ((C2_total_is_sum baseDb c2Order t0 "ffffffffffffffffffffffff").1 _ _
      c2_run_ok).1
  · have hprice : itemFruitPrice baseDb.fruits
        ⟨"abcabcabcabcabcabcabcabc", (3/2 : ℚ)⟩ = 333/100 := rfl
    show (([⟨"abcabcabcabcabcabcabcabc", (3/2 : ℚ)⟩] : List OrderItemModel).map
      (fun i => itemFruitPrice baseDb.fruits i * i.quantityKg)).sum = 999/200
    rw [List.map_singleton, List.sum_singleton, hprice]
    norm_num

/-- C3: creating an order that references a fruit whose well-formed
system identifier matches no fruit document fails with a 404 NotFound
and persists nothing (the database is unchanged).  On the API path this
holds for any item list in which the items before the missing one pass
validation (the error is the fruit 404 message when the customer
resolves, and the customer 404 otherwise — a NotFound either way); on
the web path the fruit is looked up first, so a miss always gives
"Fruit not found". -/
theorem C3_missing_fruit_404 (db : DB) (now : PyDateTime) (newId : String) :
    (∀ (order : OrderModel) (pre : List OrderItemModel) (bad : OrderItemModel)
        (rest : List OrderItemModel),
      order.items = pre ++ bad :: rest →
      (∀ i ∈ pre, itemPasses db.fruits i) →
      parseObjectId bad.fruitId = some bad.fruitId →
      findFruitByOid db.fruits bad.fruitId = none →
      (create_order_api db order now newId).1 = db ∧
      ∃ e, (create_order_api db order now newId).2 = .error e ∧ e.status = 404) ∧
    (∀ (cid fid : String) (q : ℚ) (st : String),
      parseObjectId fid = some fid →
      findFruitByOid db.fruits fid = none →
      create_order db cid fid q st now newId = (db, .error ⟨404, "Fruit not found"⟩)) := by
  constructor
  · intro order pre bad rest hitems hpre hv hmiss
    cases hc : findCustomerByCid db.customers (.str order.customerId) with
    | none =>
        rw [create_order_api_customer_missing db order now newId hc]
        exact ⟨rfl, ⟨404, "Customer not found"⟩, rfl, rfl⟩
    | some c =>
        have heq := processItemsApi_first_missing db.fruits pre bad rest 0 [] hpre hv hmiss
        rw [← hitems] at heq
        constructor
        · simp only [create_order_api, hc, heq]
        · exact ⟨⟨404, fruitNotFoundMsg bad.fruitId⟩,
            by simp only [create_order_api, hc, heq], rfl⟩
  · intro cid fid q st hv hmiss
    exact create_order_fruit_missing db cid fid q st now newId hv hmiss

/-- C3 witness: a valid-format identifier absent from the store — the
API request fails with a 404 and the state is unchanged; the web request
fails with the 404 "Fruit not found" and the state is unchanged. -/
theorem C3_missing_fruit_404_witness :
    ((create_order_api baseDb ⟨"C1", [⟨"abcdefabcdefabcdefabcdef", 1⟩], "Pending"⟩ t0
        "dddddddddddddddddddddddd").1 = baseDb ∧
      ∃ e, (create_order_api baseDb ⟨"C1", [⟨"abcdefabcdefabcdefabcdef", 1⟩], "Pending"⟩
        t0 "dddddddddddddddddddddddd").2 = .error e ∧ e.status = 404) ∧
    create_order baseDb "C1" "abcdefabcdefabcdefabcdef" 2 "Pending" t0
        "dddddddddddddddddddddddd" = (baseDb, .error ⟨404, "Fruit not found"⟩) := by
  constructor
  · exact (C3_missing_fruit_404 baseDb t0 "dddddddddddddddddddddddd").1
      ⟨"C1", [⟨"abcdefabcdefabcdefabcdef", 1⟩], "Pending"⟩
      [] ⟨"abcdefabcdefabcdefabcdef", 1⟩ []
      rfl (fun i hi => absurd hi (List.not_mem_nil i)) rfl rfl
  · exact (C3_missing_fruit_404 baseDb t0 "dddddddddddddddddddddddd").2
      "C1" "abcdefabcdefabcdefabcdef" 2 "Pending" rfl rfl

/-- C4: order creation on either entry point, succeeding or failing,
never modifies any fruit document: the fruits collection of the
resulting state is exactly the collection before the call — stock is
read for the check but never decremented. -/
theorem C4_fruits_unchanged (db : DB) (order : OrderModel) (now : PyDateTime)
    (newId : String) (cid fid : String) (q : ℚ) (st : String) :
    ((create_order_api db order now newId).1).fruits = db.fruits ∧
    ((create_order db cid fid q st now newId).1).fruits = db.fruits := by
  constructor
  · unfold create_order_api
    split
    · rfl
    · split
      · rfl
      · rfl
  · unfold create_order
    split
    · rfl
    · split
      · rfl
      · split
        · rfl
        · rfl

/-- C5 counterexample: an API request in which both the customer and the
referenced fruit are absent reports the customer NotFound, not the fruit
NotFound — the API handler resolves the customer before looking at any
line item, contrary to the claimed steps 1–3-before-step-4 order. -/
theorem C5_api_checks_customer_first :
    findFruitByOid emptyDb.fruits "abcdefabcdefabcdefabcdef" = none ∧
    findCustomerByCid emptyDb.customers (.str "ghost") = none ∧
    create_order_api emptyDb ⟨"ghost", [⟨"abcdefabcdefabcdefabcdef", 1⟩], "Pending"⟩ t0
        "dddddddddddddddddddddddd" =
      (emptyDb, .error ⟨404, "Customer not found"⟩) ∧
    "Customer not found" ≠ fruitNotFoundMsg "abcdefabcdefabcdefabcdef" :=
  ⟨rfl, rfl, rfl, by decide⟩

/-- C5 (amended): the two entry points resolve in opposite orders.  The
web form path validates the fruit before resolving the customer, so when
both are absent the failure is the fruit NotFound; the API path resolves
the customer by business identifier first — before any line-item lookup
and regardless of the item list — so when both are absent the failure is
the customer NotFound. -/
theorem C5_resolution_order (db : DB) (now : PyDateTime) (newId : String) :
    (∀ (order : OrderModel),
      findCustomerByCid db.customers (.str order.customerId) = none →
      create_order_api db order now newId = (db, .error ⟨404, "Customer not found"⟩)) ∧
    (∀ (cid fid : String) (q : ℚ) (st : String),
      parseObjectId fid = some fid →
      findFruitByOid db.fruits fid = none →
      create_order db cid fid q st now newId = (db, .error ⟨404, "Fruit not found"⟩)) := by
  constructor
  · intro order hc
    exact create_order_api_customer_missing db order now newId hc
  · intro cid fid q st hv hmiss
    exact create_order_fruit_missing db cid fid q st now newId hv hmiss

/-- C5 witness: the amended theorem at the empty store — the API request
reports the customer 404; the web request reports the fruit 404. -/
theorem C5_resolution_order_witness :
    create_order_api emptyDb ⟨"ghost2", [⟨"aaaaaaaaaaaaaaaaaaaaaaaa", 1⟩], "Pending"⟩ t0
        "dddddddddddddddddddddddd" = (emptyDb, .error ⟨404, "Customer not found"⟩) ∧
    create_order emptyDb "ghost2" "aaaaaaaaaaaaaaaaaaaaaaaa" 1 "Pending" t0
        "dddddddddddddddddddddddd" = (emptyDb, .error ⟨404, "Fruit not found"⟩) :=
  ⟨(C5_resolution_order emptyDb t0 "dddddddddddddddddddddddd").1
      ⟨"ghost2", [⟨"aaaaaaaaaaaaaaaaaaaaaaaa", 1⟩], "Pending"⟩ rfl,
   (C5_resolution_order emptyDb t0 "dddddddddddddddddddddddd").2 "ghost2"
      "aaaaaaaaaaaaaaaaaaaaaaaa" 1 "Pending" rfl rfl⟩

/-- `ObjectId(value)` as used by the listing fallback chain: succeeds on
a 24-hex string or an existing `ObjectId`, raises otherwise. -/
def tryObjectIdValue : Value → Option String
  | .str s => parseObjectId s
  | .oid h => some h
  | _ => none

/-- Decimal digits to a number (most significant first). -/
def digitsToNat (l : List Char) : Nat :=
  l.foldl (fun acc c => 10 * acc + (c.toNat - '0'.toNat)) 0

/-- Python `int(s)` on a string: an optional sign followed by at least
one decimal digit (surrounding whitespace and underscore separators are
not modelled); anything else raises `ValueError`. -/
def pyStrToInt (s : String) : Option Int :=
  match s.toList with
  | [] => none
  | '-' :: ds =>
    if !ds.isEmpty && ds.all Char.isDigit then some (-(digitsToNat ds : Int)) else none
  | '+' :: ds =>
    if !ds.isEmpty && ds.all Char.isDigit then some (digitsToNat ds : Int) else none
  | ds => if ds.all Char.isDigit then some (digitsToNat ds : Int) else none

/-- Python `int(value)`: ints pass through, booleans coerce to 0/1,
floats truncate toward zero, numeric strings parse, everything else
raises. -/
def pyToInt : Value → Option Int
  | .int n => some n
  | .bool b => some (if b then 1 else 0)
  | .num q => some (if 0 ≤ q then ⌊q⌋ else -⌊-q⌋)
  | .str s => pyStrToInt s
  | _ => none

/-- The four-strategy customer resolution fallback chain of the web
`list_orders` handler: match `customerId` as stored, then interpret the
reference as a system identifier, then coerce to `int`, then coerce to
`str`; each strategy is attempted only if the previous ones found
nothing. -/
def resolveCustomerWeb (customers : List CustomerDoc) (cid : Value) : Option CustomerDoc :=
  match findCustomerByCid customers cid with
  | some c => some c
  | none =>
    match (match tryObjectIdValue cid with
           | some o => findCustomerByOid customers o
           | none => none) with
    | some c => some c
    | none =>
      match (match pyToInt cid with
             | some n => findCustomerByCid customers (.int n)
             | none => none) with
      | some c => some c
      | none => findCustomerByCid customers (.str (pyStr cid))

/-- A line item as rendered by the web listing. -/
structure WebItem where
  quantityKg : Value
  fruitName : String
  fruitId : String
deriving Repr

/-- The per-item body of the web listing loop: only dict items are
processed (others are skipped by the `isinstance` guard); a truthy
`fruitId` is looked up and a miss substitutes the placeholder
"Unknown Fruit" while keeping the item; a falsy/absent `fruitId` yields
"No Fruit ID".  The `find_one` call cannot raise here, so the
surrounding `try/except` is never taken. -/
def webItemOf (fruits : List FruitDoc) : Value → Option WebItem
  | .dict kvs =>
    let fid := (kvs.lookup "fruitId").getD .null
    if isTruthy fid then
      match findFruitByIdValue fruits fid with
      | some f => some ⟨(kvs.lookup "quantityKg").getD (.int 0), f.name, pyStr fid⟩
      | none => some ⟨(kvs.lookup "quantityKg").getD (.int 0), "Unknown Fruit", pyStr fid⟩
    else some ⟨(kvs.lookup "quantityKg").getD (.int 0), "No Fruit ID", ""⟩
  | _ => none

/-- The items section of the web listing: the guard
`raw_items and hasattr(raw_items, '__iter__') and not isinstance(raw_items, str)`
admits only truthy non-string iterables; of these, a list is iterated
with non-dict elements skipped, and a dict iterates its keys (strings,
all skipped), so every non-list case renders no items and cannot
fault. -/
def processItemsWeb (fruits : List FruitDoc) : Value → List WebItem
  | .arr l => l.filterMap (webItemOf fruits)
  | _ => []

/-- `order.get("orderDate").strftime('%Y-%m-%d') if order.get("orderDate") else 'N/A'`:
falsy renders "N/A"; a truthy `datetime` is formatted; a truthy value of
any other type raises `AttributeError` (no `strftime`). -/
def webOrderDateStr (v : Value) : Except String String :=
  if isTruthy v then
    match v with
    | .date d => .ok (strftimeYMD d)
    | _ => .error "AttributeError: strftime"
  else .ok "N/A"

/-- An order as rendered by the web listing. -/
structure WebOrder where
  oid : String
  orderDate : String
  customerId : Value
  totalAmount : Value
  status : Value
  customerName : String
  orderItems : List WebItem
deriving Repr

/-- The per-order body of the web `list_orders` loop: build the clean
dict (the `orderDate` access is the one step that can raise, which
aborts the whole listing), resolve the customer through the fallback
chain with the `f"Unknown ({customer_id})"` placeholder on total
failure and "No Customer ID" on a falsy reference, and render the
items. -/
def processOrderWeb (db : DB) (o : OrderDoc) : Except String WebOrder :=
  match webOrderDateStr (o.orderDate.getD .null) with
  | .error e => .error e
  | .ok dateStr =>
    let cid := o.customerId.getD .null
    let customerName :=
      if isTruthy cid then
        match resolveCustomerWeb db.customers cid with
        | some c => c.name
        | none => "Unknown (" ++ pyStr cid ++ ")"
      else "No Customer ID"
    .ok { oid := o.oid, orderDate := dateStr, customerId := cid,
          totalAmount := o.totalAmount.getD (.int 0),
          status := o.status.getD (.str "Unknown"),
          customerName := customerName,
          orderItems := processItemsWeb db.fruits (o.items.getD .null) }

/-- Process a list through a fallible step, stopping at the first
fault (the loop body's exception aborts the enclosing `try`). -/
def mapE (f : α → Except ε β) : List α → Except ε (List β)
  | [] => .ok []
  | x :: xs =>
    match f x with
    | .error e => .error e
    | .ok y =>
      match mapE f xs with
      | .error e => .error e
      | .ok ys => .ok (y :: ys)

/-- `src/routes/web_routes.py` `list_orders`: process every order; any
fault inside the loop is caught by the outer `except`, which renders the
page with an empty order list instead. -/
def list_orders (db : DB) : List WebOrder :=
  match mapE (processOrderWeb db) db.orders with
  | .ok l => l
  | .error _ => []

/-- A line item as rendered by the API listing: the serialized raw item,
plus `fruitName`/`fruitPrice` keys that are set only when the fruit
resolves (`none` models the key being absent). -/
structure ApiItem where
  base : Value
  fruitName : Option String
  fruitPrice : Option ℚ
deriving Repr

/-- The per-item body of the API listing loop: serialize the item, then
`item.get("fruitId")` — which raises on a non-dict item (there is no
`isinstance` guard on this path) — and attach name and price only when
the fruit is found; on a miss the item is kept with no placeholder. -/
def apiProcessItem (fruits : List FruitDoc) : Value → Except String ApiItem
  | .dict kvs =>
    let fid := (kvs.lookup "fruitId").getD .null
    if isTruthy fid then
      match findFruitByIdValue fruits fid with
      | some f => .ok ⟨serialize_doc (.dict kvs), some f.name, some f.pricePerKg⟩
      | none => .ok ⟨serialize_doc (.dict kvs), none, none⟩
    else .ok ⟨serialize_doc (.dict kvs), none, none⟩
  | _ => .error "AttributeError: item.get on non-dict"

/-- The items section of the API listing: `if order.get("items"):` skips
falsy values; a truthy list is processed item by item; a truthy
non-list value faults (iterating it either raises `TypeError` directly
or yields non-dict elements that raise in `item.get`). -/
def apiProcessItems (fruits : List FruitDoc) (itemsVal : Value) :
    Except String (Option (List ApiItem)) :=
  if isTruthy itemsVal then
    match itemsVal with
    | .arr l => (mapE (apiProcessItem fruits) l).map some
    | _ => .error "TypeError: not iterable"
  else pure none

/-- The stored order document as the dict the driver hands back
(present fields only, in creation order). -/
def OrderDoc.toValue (o : OrderDoc) : Value :=
  .dict ([("_id", .oid o.oid)] ++
    (match o.orderDate with | some v => [("orderDate", v)] | none => []) ++
    (match o.customerId with | some v => [("customerId", v)] | none => []) ++
    (match o.items with | some v => [("items", v)] | none => []) ++
    (match o.totalAmount with | some v => [("totalAmount", v)] | none => []) ++
    (match o.status with | some v => [("status", v)] | none => []))

/-- An order as rendered by the API listing: the serialized document,
the optional `customerName` key (set only for a truthy stored
reference, with the bare placeholder "Unknown" on a miss), and the
optional replaced items list. -/
structure ApiOrder where
  base : Value
  customerName : Option String
  items : Option (List ApiItem)
deriving Repr

/-- The per-order body of the API `get_orders` loop: serialize the
order, resolve the customer by the single `customerId` lookup (no
fallback chain, placeholder "Unknown" without the reference value), and
process the items. -/
def apiProcessOrder (db : DB) (o : OrderDoc) : Except String ApiOrder :=
  let base := serialize_doc o.toValue
  let cid := o.customerId.getD .null
  let customerName :=
    if isTruthy cid then
      some (match findCustomerByCid db.customers cid with
            | some c => c.name
            | none => "Unknown")
    else none
  match apiProcessItems db.fruits (o.items.getD .null) with
  | .error e => .error e
  | .ok items => .ok ⟨base, customerName, items⟩

/-- The API listing response: a success envelope with the data, or the
500 error envelope `{success: false, error: str(e)}` that the generic
`except` returns when any order's processing faults. -/
inductive ApiResult where
  | ok (data : List ApiOrder)
  | err (msg : String)
deriving Repr

/-- `src/routes/api_routes.py` `get_orders` with the optional
status/customer filters at their `None` defaults: page the orders with
`skip`/`limit`, process each, and on any fault return the 500 error
envelope carrying the fault's message. -/
def get_orders (db : DB) (skip limit : Nat) : ApiResult :=
  match mapE (apiProcessOrder db) ((db.orders.drop skip).take limit) with
  | .ok l => .ok l
  | .error e => .err e

/-- A fault at any element makes the whole fallible loop fault (with the
first faulting element's message). -/
theorem mapE_error_of_mem (f : α → Except ε β) :
    ∀ (l : List α) (x : α) (e : ε), x ∈ l → f x = .error e →
      ∃ e', mapE f l = .error e'
  | [], x, e, hx, _ => absurd hx (List.not_mem_nil x)
  | y :: ys, x, e, hx, hfx => by
      cases hy : f y with
      | error e2 => exact ⟨e2, by simp only [mapE, hy]⟩
      | ok b =>
        rcases List.mem_cons.mp hx with h | h
        · subst h; rw [hfx] at hy; exact Except.noConfusion hy
        · obtain ⟨e', he'⟩ := mapE_error_of_mem f ys x e h hfx
          exact ⟨e', by simp only [mapE, hy, he']⟩

/-- C9 counterexample: an order whose stored `items` field is a
non-iterable integer makes the API listing return the 500 error
envelope — the fault is surfaced to the caller, not replaced by an
empty result set. -/
def badItemsOrder : OrderDoc :=
  { oid := "111111111111111111111111", orderDate := none,
    customerId := some (.str "C1"), items := some (.int 5),
    totalAmount := some (.int 9), status := some (.str "Pending") }

def dbBadItems : DB := { customers := [], fruits := [], orders := [badItemsOrder] }

/-- An order whose stored `orderDate` is a truthy non-datetime: the web
listing's `strftime` access faults on it. -/
def badDateOrder : OrderDoc :=
  { oid := "222222222222222222222222", orderDate := some (.str "oops"),
    customerId := some (.str "C1"), items := none,
    totalAmount := none, status := none }

def dbBadDate : DB := { customers := [], fruits := [], orders := [badDateOrder] }

/-- C9 counterexample: the API listing propagates a processing fault as
a 500 error envelope instead of falling back to an empty result set. -/
theorem C9_api_propagates_fault :
    get_orders dbBadItems 0 100 = .err "TypeError: not iterable" ∧
    get_orders dbBadItems 0 100 ≠ .ok [] :=
  ⟨rfl, fun h => ApiResult.noConfusion h⟩

/-- C9 (amended): when processing any individual order faults, the web
listing catches the fault and renders an empty order list (never
propagating it), while the API listing returns the 500 error envelope
carrying the fault's message — only the web path degrades to an empty
result set. -/
theorem C9_listing_fault_handling (db : DB) :
    (∀ (o : OrderDoc) (e : String), o ∈ db.orders →
      processOrderWeb db o = .error e → list_orders db = []) ∧
    (∀ (o : OrderDoc) (e : String) (skip limit : Nat),
      o ∈ (db.orders.drop skip).take limit →
      apiProcessOrder db o = .error e →
      ∃ msg, get_orders db skip limit = .err msg) := by
  constructor
  · intro o e ho herr
    obtain ⟨e', he'⟩ := mapE_error_of_mem (processOrderWeb db) db.orders o e ho herr
    simp only [list_orders, he']
  · intro o e skip limit ho herr
    obtain ⟨e', he'⟩ := mapE_error_of_mem (apiProcessOrder db) _ o e ho herr
    exact ⟨e', by simp only [get_orders, he']⟩

/-- C9 witness: a malformed `orderDate` faults the web processing and
the whole web listing renders empty; a malformed `items` faults the API
processing and the API listing returns an error envelope. -/
theorem C9_listing_fault_handling_witness :
    list_orders dbBadDate = [] ∧
    ∃ msg, get_orders dbBadItems 0 100 = .err msg := by
  constructor
  · exact (C9_listing_fault_handling dbBadDate).1 badDateOrder
      "AttributeError: strftime" (List.mem_singleton.mpr rfl) rfl
  · exact (C9_listing_fault_handling dbBadItems).2 badItemsOrder
      "TypeError: not iterable" 0 100 (by simp [dbBadItems]) rfl

/-- An order whose stored customer reference "ghost" matches none of the
four fallback strategies against the store's customers. -/
def ghostOrder : OrderDoc :=
  { oid := "333333333333333333333333", orderDate := none,
    customerId := some (.str "ghost"), items := none,
    totalAmount := none, status := none }

def dbGhost : DB :=
  { customers := [aliceCustomer], fruits := [], orders := [ghostOrder] }

/-- C7 counterexample: the API listing resolves the customer with a
single lookup and renders the bare placeholder "Unknown" on a miss — it
does not embed the raw reference value as the claim (covering every
listing operation) requires. -/
theorem C7_api_placeholder_lacks_reference :
    resolveCustomerWeb dbGhost.customers (.str "ghost") = none ∧
    get_orders dbGhost 0 100 =
      .ok [⟨serialize_doc ghostOrder.toValue, some "Unknown", none⟩] ∧
    ("Unknown" : String) ≠ "Unknown (" ++ pyStr (Value.str "ghost") ++ ")" :=
  ⟨rfl, rfl, by decide⟩

/-- C7 (amended): an order whose truthy stored customer reference
matches none of the four web fallback strategies is still rendered by
the web listing with the placeholder `"Unknown (<value>)"` embedding the
raw reference, and the resolution itself never faults; the API listing
performs only the first strategy and renders the bare placeholder
"Unknown" (without the reference value) on a miss, likewise without
faulting. -/
theorem C7_unresolved_customer_placeholder (db : DB) (o : OrderDoc) (cid : Value) :
    (o.customerId = some cid → isTruthy cid = true →
      resolveCustomerWeb db.customers cid = none →
      ∀ ds, webOrderDateStr (o.orderDate.getD .null) = .ok ds →
      ∃ po, processOrderWeb db o = .ok po ∧
        po.customerName = "Unknown (" ++ pyStr cid ++ ")") ∧
    (∀ l, mapE (processOrderWeb db) db.orders = .ok l → list_orders db = l) ∧
    (o.customerId = some cid → isTruthy cid = true →
      findCustomerByCid db.customers cid = none →
      ∀ its, apiProcessItems db.fruits (o.items.getD .null) = .ok its →
      apiProcessOrder db o = .ok ⟨serialize_doc o.toValue, some "Unknown", its⟩) := by
  refine ⟨?_, ?_, ?_⟩
  · intro hcid ht hres ds hds
    have hrun : processOrderWeb db o = .ok
        { oid := o.oid, orderDate := ds, customerId := cid,
          totalAmount := o.totalAmount.getD (.int 0),
          status := o.status.getD (.str "Unknown"),
          customerName := "Unknown (" ++ pyStr cid ++ ")",
          orderItems := processItemsWeb db.fruits (o.items.getD .null) } := by
      simp only [processOrderWeb, hds, hcid, Option.getD_some, ht, if_true, hres]
    exact ⟨_, hrun, rfl⟩
  · intro l h
    simp only [list_orders, h]
  · intro hcid ht hc its hits
    simp only [apiProcessOrder, hcid, Option.getD_some, ht, if_true, hc, hits]

/-- C7 witness: the amended theorem at the concrete store — the web
processing renders `"Unknown (ghost)"`, the API processing renders
"Unknown". -/
theorem C7_unresolved_customer_placeholder_witness :
    (∃ po, processOrderWeb dbGhost ghostOrder = .ok po ∧
      po.customerName = "Unknown (" ++ pyStr (Value.str "ghost") ++ ")") ∧
    apiProcessOrder dbGhost ghostOrder =
      .ok ⟨serialize_doc ghostOrder.toValue, some "Unknown", none⟩ := by
  constructor
  · exact (C7_unresolved_customer_placeholder dbGhost ghostOrder (.str "ghost")).1
      rfl rfl rfl "N/A" rfl
  · exact (C7_unresolved_customer_placeholder dbGhost ghostOrder (.str "ghost")).2.2
      rfl rfl rfl none rfl

/-- A line item referencing a fruit identifier absent from the store. -/
def orphanItem : Value :=
  .dict [("fruitId", .oid "abcdefabcdefabcdefabcdef"), ("quantityKg", .int 2)]

def orphanOrder : OrderDoc :=
  { oid := "444444444444444444444444", orderDate := none,
    customerId := none, items := some (.arr [orphanItem]),
    totalAmount := none, status := none }

def dbOrphan : DB := { customers := [], fruits := [], orders := [orphanOrder] }

/-- C8 counterexample: the API listing keeps a line item whose fruit is
missing but attaches no name at all (the `fruitName` key is simply
absent), rather than the claimed "Unknown Fruit" placeholder. -/
theorem C8_api_item_lacks_placeholder :
    get_orders dbOrphan 0 100 =
      .ok [⟨serialize_doc orphanOrder.toValue, none,
        some [⟨serialize_doc orphanItem, none, none⟩]⟩] ∧
    (none : Option String) ≠ some "Unknown Fruit" :=
  ⟨rfl, fun h => Option.noConfusion h⟩

/-- C8 (amended): a line item whose embedded fruit identifier is truthy
but matches no fruit document is still included by both listings and
neither faults; the web listing substitutes the placeholder name
"Unknown Fruit", while the API listing keeps the item with no
`fruitName` key at all. -/
theorem C8_missing_fruit_item_kept (fruits : List FruitDoc)
    (kvs : List (String × Value)) (fid : Value) (l : List Value) :
    (kvs.lookup "fruitId" = some fid → isTruthy fid = true →
      findFruitByIdValue fruits fid = none →
      webItemOf fruits (.dict kvs) =
        some ⟨(kvs.lookup "quantityKg").getD (.int 0), "Unknown Fruit", pyStr fid⟩ ∧
      (Value.dict kvs ∈ l →
        (⟨(kvs.lookup "quantityKg").getD (.int 0), "Unknown Fruit", pyStr fid⟩ : WebItem) ∈
          processItemsWeb fruits (.arr l))) ∧
    (kvs.lookup "fruitId" = some fid → isTruthy fid = true →
      findFruitByIdValue fruits fid = none →
      apiProcessItem fruits (.dict kvs) = .ok ⟨serialize_doc (.dict kvs), none, none⟩) := by
  constructor
  · intro hlk ht hmiss
    have h1 : webItemOf fruits (.dict kvs) =
        some ⟨(kvs.lookup "quantityKg").getD (.int 0), "Unknown Fruit", pyStr fid⟩ := by
      simp only [webItemOf, hlk, Option.getD_some, ht, if_true, hmiss]
    refine ⟨h1, fun hmem => ?_⟩
    simp only [processItemsWeb]
    exact List.mem_filterMap.mpr ⟨.dict kvs, hmem, h1⟩
  · intro hlk ht hmiss
    simp only [apiProcessItem, hlk, Option.getD_some, ht, if_true, hmiss]

/-- C8 witness: the amended theorem at the concrete orphan item — the
web listing keeps it with the "Unknown Fruit" placeholder; the API
listing keeps it with no name. -/
theorem C8_missing_fruit_item_kept_witness :
    webItemOf dbOrphan.fruits orphanItem =
      some ⟨.int 2, "Unknown Fruit", pyStr (.oid "abcdefabcdefabcdefabcdef")⟩ ∧
    (⟨.int 2, "Unknown Fruit", pyStr (.oid "abcdefabcdefabcdefabcdef")⟩ : WebItem) ∈
      processItemsWeb dbOrphan.fruits (.arr [orphanItem]) ∧
    apiProcessItem dbOrphan.fruits orphanItem =
      .ok ⟨serialize_doc orphanItem, none, none⟩ := by
  have h := C8_missing_fruit_item_kept dbOrphan.fruits
    [("fruitId", .oid "abcdefabcdefabcdefabcdef"), ("quantityKg", .int 2)]
    (.oid "abcdefabcdefabcdefabcdef") [orphanItem]
  refine ⟨?_, ?_, ?_⟩
  · exact (h.1 rfl rfl rfl).1
  · exact (h.1 rfl rfl rfl).2 (List.mem_singleton.mpr rfl)
  · exact h.2 rfl rfl rfl

/-- `models/customer.py` `CustomerUpdateModel`: the partial-patch model
for the API update — it carries `name`, `phone`, `address` and
`isMember` only; there is no `customerId` field. -/
structure CustomerUpdateModel where
  name : Option String
  phone : Option String
  address : Option String
  isMember : Option Bool
deriving Repr

/-- `update_data = {k: v for k, v in ... if v is not None}` is
nonempty. -/
def CustomerUpdateModel.hasUpdate (u : CustomerUpdateModel) : Bool :=
  u.name.isSome || u.phone.isSome || u.address.isSome || u.isMember.isSome

/-- The `$set` produced by the API update applied to a stored customer:
each present field overwrites, `updated_at` is stamped, and no other
field — in particular `customerId` — can appear in the set document
because the update model has no such field. -/
def applyCustomerSet (u : CustomerUpdateModel) (now : PyDateTime)
    (c : CustomerDoc) : CustomerDoc :=
  { c with
    name := u.name.getD c.name,
    phone := u.phone.getD c.phone,
    address := u.address.getD c.address,
    isMember := u.isMember.getD c.isMember,
    updated_at := some (.date now) }

/-- `update_one`: rewrite the first document matching the filter. -/
def updateFirst (p : α → Bool) (f : α → α) : List α → List α
  | [] => []
  | x :: xs => if p x then f x :: xs else x :: updateFirst p f xs

/-- `src/routes/api_routes.py` `update_customer_api`: 400 when the patch
is empty, 500 on a malformed identifier, 404 when no document matches,
otherwise `$set` the present fields (plus `updated_at`) on the matched
customer. -/
def update_customer_api (db : DB) (customer_id : String)
    (u : CustomerUpdateModel) (now : PyDateTime) : DB × Except HTTPError Unit :=
  if u.hasUpdate then
    match parseObjectId customer_id with
    | none => (db, .error ⟨500, "InvalidId: " ++ customer_id⟩)
    | some o =>
      if (findCustomerByOid db.customers o).isSome then
        ({ db with customers :=
            updateFirst (fun c => c.oid == o) (applyCustomerSet u now) db.customers },
         .ok ())
      else (db, .error ⟨404, "Customer not found"⟩)
  else (db, .error ⟨400, "No update data provided"⟩)

/-- The full-field form posted by the web edit route. -/
structure CustomerForm where
  customerId : String
  name : String
  phone : String
  address : String
  isMember : Bool
deriving Repr

/-- The `$set` of the web `edit_customer` route: a full overwrite that
includes `customerId` taken from the form. -/
def applyCustomerEditForm (form : CustomerForm) (now : PyDateTime)
    (c : CustomerDoc) : CustomerDoc :=
  { c with
    customerId := .str form.customerId,
    name := form.name,
    phone := form.phone,
    address := form.address,
    isMember := form.isMember,
    updated_at := some (.date now) }

/-- `src/routes/web_routes.py` `edit_customer`: overwrite every form
field (including `customerId`) on the matched customer. -/
def edit_customer (db : DB) (customer_id : String) (form : CustomerForm)
    (now : PyDateTime) : DB × Except HTTPError Unit :=
  match parseObjectId customer_id with
  | none => (db, .error ⟨500, "InvalidId: " ++ customer_id⟩)
  | some o =>
    if (findCustomerByOid db.customers o).isSome then
      ({ db with customers :=
          updateFirst (fun c => c.oid == o) (applyCustomerEditForm form now) db.customers },
       .ok ())
    else (db, .error ⟨404, "Customer not found"⟩)

/-- Updating the first match with a field-preserving function preserves
that field across the collection. -/
theorem map_updateFirst {α γ : Type} (g : α → γ) (p : α → Bool) (f : α → α)
    (hf : ∀ a, g (f a) = g a) :
    ∀ l : List α, (updateFirst p f l).map g = l.map g
  | [] => rfl
  | x :: xs => by
      simp only [updateFirst]
      by_cases hx : p x
      · rw [if_pos hx]; simp [hf x]
      · rw [if_neg hx]; simp [map_updateFirst g p f hf xs]

/-- C10: an API customer update never changes any stored customer's
business identifier — the partial-patch model has no `customerId` field,
so the `$set` cannot contain it and the `customerId` column of the
collection is unchanged in every branch (success or error); by contrast
the web edit path's `$set` always overwrites `customerId` with the form
value. -/
theorem C10_api_update_preserves_customerId (db : DB) (customer_id : String)
    (u : CustomerUpdateModel) (now : PyDateTime) :
    (((update_customer_api db customer_id u now).1).customers.map
        (fun c => c.customerId) =
      db.customers.map (fun c => c.customerId)) ∧
    (∀ (form : CustomerForm) (c : CustomerDoc),
      (applyCustomerEditForm form now c).customerId = .str form.customerId ∧
      (applyCustomerSet u now c).customerId = c.customerId) := by
  constructor
  · unfold update_customer_api
    split
    · split
      · rfl
      · split
        · apply map_updateFirst
          intro a
          rfl
        · rfl
    · rfl
  · intro form c
    exact ⟨rfl, rfl⟩
